import Mathlib

/-!
Shallow embedding of `superjump22/next-darkmode` (`src/index.ts`).

The module is a React hook that coordinates a theme-store write with a
browser view transition.  We embed the DOM pieces the code touches:

* the document head as a list of `<style>` elements (`Doc`),
* the next-themes store values (`HookState.theme`, `HookState.resolvedTheme`),
* the platform environment (`Env`): window/`startViewTransition` availability,
  the viewport size, and whether the transition's `ready` / `finished`
  promises resolve and the `animate` calls succeed,
* an event log (`Event`) recording every observable effect in order:
  `setTheme` store writes, actual style-element insertions/removals,
  `startViewTransition` calls and `animate` calls.

JavaScript values are embedded as follows: numbers as `ℚ` (or `ℝ` where the
code does real arithmetic: coordinates and `Math.hypot`), the `x || y`
idiom via explicit truthiness (`JsVal.truthy`, `jsOrVal`, `jsOrStr`),
optional values as `Option`.  A rejected awaited promise or a throwing call
is modelled by the corresponding `Env` flag being `false`; `RunResult.raised`
records whether an exception escapes the embedded `async` function.

The repository file contains two variants of the module: the current one
(helper functions `handleCircularReveal` / `handleCustomTransition`) and an
earlier inline variant whose `custom` case differs only in the pseudo-element
chosen for a numeric old-snapshot options value; the latter is embedded as
`resolveOldAnimOptionsInline` / `handleCustomTransitionInline`.
-/

namespace NextDarkMode

/-- `type DarkModeTheme = 'dark' | 'light' | 'system'`. -/
inductive DarkModeTheme
  | dark
  | light
  | system
deriving DecidableEq, Repr

/-- The string a `DarkModeTheme` denotes (themes are strings in the source). -/
def DarkModeTheme.toStr : DarkModeTheme → String
  | .dark => "dark"
  | .light => "light"
  | .system => "system"

/-- A JavaScript value as far as this code inspects one: a number, a string,
or some other object (e.g. a `CSSNumericValue`), identified by a tag. -/
inductive JsVal
  | num (n : ℚ)
  | str (s : String)
  | obj (tag : ℕ)
deriving DecidableEq, Repr

/-- JavaScript truthiness of a `JsVal` (`0` and `""` are falsy, objects truthy). -/
def JsVal.truthy : JsVal → Bool
  | .num n => n != 0
  | .str s => s != ""
  | .obj _ => true

/-- The `v || d` idiom on an optional JavaScript value (`undefined` is falsy). -/
def jsOrVal (v : Option JsVal) (d : JsVal) : JsVal :=
  match v with
  | some x => if x.truthy then x else d
  | Option.none => d

/-- The `v || d` idiom on an optional string. -/
def jsOrStr (v : Option String) (d : String) : String :=
  match v with
  | some s => if s != "" then s else d
  | Option.none => d

/-- Truthiness of an optional string (`if (config.css)` tests). -/
def jsTruthyOptStr : Option String → Bool
  | some s => s != ""
  | Option.none => false

/-- A `<style>` element in the document head: its `id` and `textContent`. -/
structure StyleElem where
  id : String
  text : String
deriving DecidableEq, Repr

/-- The document, as the code observes it: the head's style elements in order. -/
structure Doc where
  styles : List StyleElem
deriving DecidableEq, Repr

/-- A `circle(<radius>px at <cx>px <cy>px)` clip-path keyframe value. -/
structure ClipCircle where
  radius : ℝ
  cx : ℝ
  cy : ℝ

/-- Keyframes passed to `Element.animate`: the circular-reveal clip-path pair,
or opaque caller-supplied keyframes (identified by a tag). -/
inductive Keyframes
  | clipPath (start stop : ClipCircle)
  | raw (tag : ℕ)

/-- The options object passed to `Element.animate`, with the fields this code
ever sets. -/
structure AnimOptions where
  duration : Option JsVal := Option.none
  easing : Option String := Option.none
  pseudoElement : Option String := Option.none
deriving DecidableEq, Repr

/-- One observable effect of a run. -/
inductive Event
  | setTheme (t : DarkModeTheme)
  | addStyle (id text : String)
  | removeStyle (id : String)
  | startViewTransition
  | animate (k : Keyframes) (o : AnimOptions)

/-- `const STYLE_IDS.DISABLE_DEFAULT`. -/
def STYLE_IDS_DISABLE_DEFAULT : String :=
  "__next-easy-dark-mode-disable-view-transition-default-styles__"

/-- `const STYLE_IDS.ADD_CUSTOM`. -/
def STYLE_IDS_ADD_CUSTOM : String :=
  "__next-easy-dark-mode-add-view-transition-custom-styles__"

/-- The CSS text injected by `disableDefaultStyles` (braces escaped). -/
def disableDefaultStylesText : String :=
  "::view-transition-image-pair(root) \x7b isolation: auto; \x7d " ++
  "::view-transition-old(root), ::view-transition-new(root) " ++
  "\x7b animation: none; mix-blend-mode: normal; display: block; \x7d"

/-- `document.getElementById(id)` restricted to style elements: the first
element with the given id. -/
def getElementById (d : Doc) (id : String) : Option StyleElem :=
  d.styles.find? (fun s => s.id == id)

/-- `addDocumentStyles(id, textContent)`: if no element with `id` exists,
create one with the given text and append it to the head; otherwise no-op.
Returns the new document and the DOM mutations performed. -/
def addDocumentStyles (d : Doc) (id text : String) : Doc × List Event :=
  if (getElementById d id).isSome then (d, [])
  else (⟨d.styles ++ [⟨id, text⟩]⟩, [Event.addStyle id text])

/-- `removeDocumentStyles(id)`: detach the element with `id` from its parent
if present; otherwise no-op. -/
def removeDocumentStyles (d : Doc) (id : String) : Doc × List Event :=
  if (getElementById d id).isSome then
    (⟨d.styles.eraseP (fun s => s.id == id)⟩, [Event.removeStyle id])
  else (d, [])

/-- `disableDefaultStyles()`. -/
def disableDefaultStyles (d : Doc) : Doc × List Event :=
  addDocumentStyles d STYLE_IDS_DISABLE_DEFAULT disableDefaultStylesText

/-- `resetDefaultStyles()`. -/
def resetDefaultStyles (d : Doc) : Doc × List Event :=
  removeDocumentStyles d STYLE_IDS_DISABLE_DEFAULT

/-- A `DOMRect` as returned by `getBoundingClientRect`. -/
structure DOMRect where
  left : ℝ
  top : ℝ
  width : ℝ
  height : ℝ

/-- `CircularRevealCenter`: an element reference (whose `current` may be null,
otherwise carrying its bounding rect) or explicit coordinates. -/
inductive CircularRevealCenter
  | ref (current : Option DOMRect)
  | coords (x y : ℝ)

/-- The platform environment of one call: capability flags, whether each
awaited promise resolves / each `animate` call succeeds, and the viewport. -/
structure Env where
  hasWindow : Bool := true
  hasStartViewTransition : Bool := true
  readyOk : Bool := true
  oldAnimateOk : Bool := true
  newAnimateOk : Bool := true
  finishedOk : Bool := true
  innerWidth : ℝ := 0
  innerHeight : ℝ := 0

/-- `getCircularRevealCenter(config)`: element rect center when the ref
resolves, explicit coordinates verbatim, else the viewport center. -/
noncomputable def getCircularRevealCenter (env : Env) :
    CircularRevealCenter → ℝ × ℝ
  | .ref (some rect) => (rect.left + rect.width / 2, rect.top + rect.height / 2)
  | .ref Option.none => (env.innerWidth / 2, env.innerHeight / 2)
  | .coords x y => (x, y)

/-- `Math.hypot(a, b)`. -/
noncomputable def hypot (a b : ℝ) : ℝ :=
  Real.sqrt (a ^ 2 + b ^ 2)

/-- `AnimateConfig` options: a bare number or a `KeyframeAnimationOptions` bag
(with the fields this code reads or forwards). -/
inductive JsAnimOptions
  | num (n : ℚ)
  | bag (duration : Option JsVal) (easing : Option String)
      (pseudoElement : Option String)
deriving DecidableEq, Repr

/-- `interface AnimateConfig` — caller keyframes (opaque) plus options. -/
structure AnimateConfig where
  keyframes : ℕ
  options : Option JsAnimOptions := Option.none
deriving DecidableEq, Repr

/-- `type DarkModeTransition` (the `'none' | 'default'` tag split into two
constructors). -/
inductive DarkModeTransition
  | none
  | default
  | circularReveal (center : CircularRevealCenter)
      (duration : Option JsVal) (easing : Option String)
  | custom (old new : Option AnimateConfig) (css : Option String)

/-- The values this code reads from `useTheme()`: the raw `theme` and the
`resolvedTheme`, both possibly-undefined strings. -/
structure HookState where
  theme : Option String := Option.none
  resolvedTheme : Option String := Option.none

/-- Result of running an embedded async function: the final document, the
events in order, and whether an exception escaped. -/
structure RunResult where
  doc : Doc
  events : List Event
  raised : Bool

/-- The options the current variant builds for a custom animate call:
`typeof options === 'number' ? \x7b duration: options, pseudoElement: pe \x7d
: \x7b ...options, pseudoElement: pe \x7d` (the spread's own `pseudoElement`
is overridden). -/
def resolveAnimOptions (options : Option JsAnimOptions) (pe : String) :
    AnimOptions :=
  match options with
  | some (.num n) => { duration := some (.num n), pseudoElement := some pe }
  | some (.bag du ea _) =>
      { duration := du, easing := ea, pseudoElement := some pe }
  | Option.none => { pseudoElement := some pe }

/-- `handleCircularReveal(newTheme, setTheme, config)` of the current variant:
inject the disabling style, resolve the center, compute the max radius,
start the view transition (synchronous theme write), on `ready` animate the
new-snapshot clip-path (errors caught), await `finished` with the disabling
style removed in `finally`; a `finished` rejection escapes. -/
noncomputable def handleCircularReveal (env : Env) (newTheme : DarkModeTheme)
    (center : CircularRevealCenter) (duration : Option JsVal)
    (easing : Option String) (d : Doc) : RunResult :=
  let s1 := disableDefaultStyles d
  let c := getCircularRevealCenter env center
  let maxRadius :=
    hypot (max c.1 (env.innerWidth - c.1)) (max c.2 (env.innerHeight - c.2))
  let animEvents : List Event :=
    if env.readyOk then
      [Event.animate
        (Keyframes.clipPath ⟨0, c.1, c.2⟩ ⟨maxRadius, c.1, c.2⟩)
        { duration := some (jsOrVal duration (.num 500)),
          easing := some (jsOrStr easing "ease-in-out"),
          pseudoElement := some "::view-transition-new(root)" }]
    else []
  let s2 := resetDefaultStyles s1.1
  ⟨s2.1,
    s1.2 ++ [Event.startViewTransition, Event.setTheme newTheme] ++
      animEvents ++ s2.2,
    !env.finishedOk⟩

/-- `handleCustomTransition(newTheme, setTheme, config)` of the current
variant: inject the disabling style and (if truthy) the custom CSS, start the
view transition, on `ready` animate the old-snapshot then the new-snapshot
specs (a throwing old animate skips the new one; errors caught), then await
`finished` with both styles removed in `finally`; a `finished` rejection
escapes. -/
def handleCustomTransition (env : Env) (newTheme : DarkModeTheme)
    (old new : Option AnimateConfig) (css : Option String) (d : Doc) :
    RunResult :=
  let s1 := disableDefaultStyles d
  let s2 :=
    if jsTruthyOptStr css then
      addDocumentStyles s1.1 STYLE_IDS_ADD_CUSTOM (css.getD "")
    else (s1.1, [])
  let eOld : List Event :=
    if env.readyOk then
      match old with
      | some ac =>
          [Event.animate (Keyframes.raw ac.keyframes)
            (resolveAnimOptions ac.options "::view-transition-old(root)")]
      | Option.none => []
    else []
  let eNew : List Event :=
    if env.readyOk && (old.isNone || env.oldAnimateOk) then
      match new with
      | some ac =>
          [Event.animate (Keyframes.raw ac.keyframes)
            (resolveAnimOptions ac.options "::view-transition-new(root)")]
      | Option.none => []
    else []
  let s3 := resetDefaultStyles s2.1
  let s4 :=
    if jsTruthyOptStr css then removeDocumentStyles s3.1 STYLE_IDS_ADD_CUSTOM
    else (s3.1, [])
  ⟨s4.1,
    s1.2 ++ s2.2 ++ [Event.startViewTransition, Event.setTheme newTheme] ++
      eOld ++ eNew ++ s3.2 ++ s4.2,
    !env.finishedOk⟩

/-- `applyTheme(newTheme)` of the current variant: no-op guard on the raw
theme, capability guard (SSR / missing `startViewTransition` falls back to a
bare store write), then dispatch on the transition kind. -/
noncomputable def applyTheme (env : Env) (hs : HookState)
    (transition : DarkModeTransition) (newTheme : DarkModeTheme) (d : Doc) :
    RunResult :=
  if hs.theme = some newTheme.toStr then ⟨d, [], false⟩
  else if !env.hasWindow || !env.hasStartViewTransition then
    ⟨d, [Event.setTheme newTheme], false⟩
  else
    match transition with
    | .none => ⟨d, [Event.setTheme newTheme], false⟩
    | .default =>
        let s1 := resetDefaultStyles d
        ⟨s1.1,
          s1.2 ++ [Event.startViewTransition, Event.setTheme newTheme],
          false⟩
    | .circularReveal center duration easing =>
        handleCircularReveal env newTheme center duration easing d
    | .custom old new css => handleCustomTransition env newTheme old new css d

/-- The options the earlier inline variant builds for the OLD-snapshot
animate call (`src/index.ts` lines 470–477): its numeric branch passes
`pseudoElement: '::view-transition-new(root)'` while its bag branch passes
`'::view-transition-old(root)'`. -/
def resolveOldAnimOptionsInline (options : Option JsAnimOptions) :
    AnimOptions :=
  match options with
  | some (.num n) =>
      { duration := some (.num n),
        pseudoElement := some "::view-transition-new(root)" }
  | some (.bag du ea _) =>
      { duration := du, easing := ea,
        pseudoElement := some "::view-transition-old(root)" }
  | Option.none => { pseudoElement := some "::view-transition-old(root)" }

/-- The `custom` case of the earlier inline variant of `applyTheme`
(`src/index.ts` lines 457–503); identical to `handleCustomTransition` except
for the old-snapshot options resolution. -/
def handleCustomTransitionInline (env : Env) (newTheme : DarkModeTheme)
    (old new : Option AnimateConfig) (css : Option String) (d : Doc) :
    RunResult :=
  let s1 := disableDefaultStyles d
  let s2 :=
    if jsTruthyOptStr css then
      addDocumentStyles s1.1 STYLE_IDS_ADD_CUSTOM (css.getD "")
    else (s1.1, [])
  let eOld : List Event :=
    if env.readyOk then
      match old with
      | some ac =>
          [Event.animate (Keyframes.raw ac.keyframes)
            (resolveOldAnimOptionsInline ac.options)]
      | Option.none => []
    else []
  let eNew : List Event :=
    if env.readyOk && (old.isNone || env.oldAnimateOk) then
      match new with
      | some ac =>
          [Event.animate (Keyframes.raw ac.keyframes)
            (resolveAnimOptions ac.options "::view-transition-new(root)")]
      | Option.none => []
    else []
  let s3 := resetDefaultStyles s2.1
  let s4 :=
    if jsTruthyOptStr css then removeDocumentStyles s3.1 STYLE_IDS_ADD_CUSTOM
    else (s3.1, [])
  ⟨s4.1,
    s1.2 ++ s2.2 ++ [Event.startViewTransition, Event.setTheme newTheme] ++
      eOld ++ eNew ++ s3.2 ++ s4.2,
    !env.finishedOk⟩

/-- What `useDarkMode` returns, reduced to the theme each action requests
(the argument each closure passes to `applyTheme`). -/
structure DarkModeReturn where
  toggle : DarkModeTheme
  enable : DarkModeTheme
  disable : DarkModeTheme
  system : DarkModeTheme

/-- The four actions built at the end of `useDarkMode`:
`isDarkMode = resolvedTheme === 'dark'`;
`toggle: () => applyTheme(isDarkMode ? 'light' : 'dark')`, etc. -/
def useDarkMode (hs : HookState) : DarkModeReturn :=
  let isDarkMode : Bool := hs.resolvedTheme == some "dark"
  { toggle := if isDarkMode then .light else .dark,
    enable := .dark,
    disable := .light,
    system := .system }

/-! ## Helper lemmas about style-element counting -/

/-- Erasing by a predicate drops exactly one match when one exists. -/
theorem countP_eraseP_true {α : Type} (p : α → Bool) (l : List α) :
    (l.eraseP p).countP p = l.countP p - (if l.any p then 1 else 0) := by
  induction l with
  | nil => simp
  | cons a l ih =>
    by_cases h : p a = true
    · simp [List.eraseP_cons, h, List.countP_cons]
    · simp [List.eraseP_cons, h, List.countP_cons, ih, List.any_cons]

/-- Erasing by a predicate disjoint from `p` leaves the `p`-count unchanged. -/
theorem countP_eraseP_disjoint {α : Type} (p q : α → Bool) (l : List α)
    (hpq : ∀ a, q a = true → p a = false) :
    (l.eraseP q).countP p = l.countP p := by
  induction l with
  | nil => simp
  | cons a l ih =>
    by_cases h : q a = true
    · simp [List.eraseP_cons, h, List.countP_cons, hpq a h]
    · simp [List.eraseP_cons, h, List.countP_cons, ih]

/-- An element with `id` is found exactly when the count of `id` is positive. -/
theorem getElementById_isSome_iff (d : Doc) (id : String) :
    (getElementById d id).isSome = true ↔
      0 < d.styles.countP (fun s => s.id == id) := by
  simp [getElementById, List.find?_isSome, List.countP_pos_iff]

/-- After `addDocumentStyles d id t`, exactly one element with `id` exists,
provided the document was well-formed (at most one such element). -/
theorem countP_addDocumentStyles_self (d : Doc) (id t : String)
    (h : d.styles.countP (fun s => s.id == id) ≤ 1) :
    (addDocumentStyles d id t).1.styles.countP (fun s => s.id == id) = 1 := by
  by_cases hp : (getElementById d id).isSome = true
  · have h1 := (getElementById_isSome_iff d id).mp hp
    simp only [addDocumentStyles, hp, if_true]
    omega
  · have h0 : d.styles.countP (fun s => s.id == id) = 0 := by
      rcases Nat.eq_zero_or_pos (d.styles.countP (fun s => s.id == id)) with h' | h'
      · exact h'
      · exact absurd ((getElementById_isSome_iff d id).mpr h') hp
    simp [addDocumentStyles, hp, List.countP_append, h0, List.countP_cons]

/-- `addDocumentStyles` at a different id leaves the `id'`-count unchanged. -/
theorem countP_addDocumentStyles_other (d : Doc) (id t id' : String)
    (hne : (id == id') = false) :
    (addDocumentStyles d id t).1.styles.countP (fun s => s.id == id')
      = d.styles.countP (fun s => s.id == id') := by
  by_cases hp : (getElementById d id).isSome = true
  · simp [addDocumentStyles, hp]
  · simp [addDocumentStyles, hp, List.countP_append, List.countP_cons, hne]

/-- After `removeDocumentStyles d id`, no element with `id` remains,
provided the document was well-formed. -/
theorem countP_removeDocumentStyles_self (d : Doc) (id : String)
    (h : d.styles.countP (fun s => s.id == id) ≤ 1) :
    (removeDocumentStyles d id).1.styles.countP (fun s => s.id == id) = 0 := by
  by_cases hp : (getElementById d id).isSome = true
  · have h1 := (getElementById_isSome_iff d id).mp hp
    have hany : d.styles.any (fun s => s.id == id) = true := by
      rw [List.any_eq_true]
      obtain ⟨a, ha, hpa⟩ := List.countP_pos_iff.mp h1
      exact ⟨a, ha, hpa⟩
    simp only [removeDocumentStyles, hp, if_true]
    rw [countP_eraseP_true, hany]
    simp only [if_true]
    omega
  · have h0 : d.styles.countP (fun s => s.id == id) = 0 := by
      rcases Nat.eq_zero_or_pos (d.styles.countP (fun s => s.id == id)) with h' | h'
      · exact h'
      · exact absurd ((getElementById_isSome_iff d id).mpr h') hp
    simp [removeDocumentStyles, hp, h0]

/-- `removeDocumentStyles` at a different id leaves the `id'`-count unchanged. -/
theorem countP_removeDocumentStyles_other (d : Doc) (id id' : String)
    (hne : ∀ s : StyleElem, (s.id == id) = true → (s.id == id') = false) :
    (removeDocumentStyles d id).1.styles.countP (fun s => s.id == id')
      = d.styles.countP (fun s => s.id == id') := by
  by_cases hp : (getElementById d id).isSome = true
  · simp only [removeDocumentStyles, hp, if_true]
    exact countP_eraseP_disjoint _ _ _ hne
  · simp [removeDocumentStyles, hp]

/-! ## Claims -/

/-- Claim C4: when `newTheme` equals the store's current raw theme value,
`applyTheme` returns immediately: no store write, no DOM mutation, no
exception — regardless of the transition kind, the environment and the
resolved theme. -/
theorem applyTheme_noop_guard (env : Env) (hs : HookState)
    (transition : DarkModeTransition) (newTheme : DarkModeTheme) (d : Doc)
    (h : hs.theme = some newTheme.toStr) :
    applyTheme env hs transition newTheme d = ⟨d, [], false⟩ := by
  simp [applyTheme, h]

/-- Witness for C4: raw theme `'system'` with resolved theme `'dark'`
(resolved differs from raw), requesting `'system'` again is a pure no-op. -/
theorem applyTheme_noop_guard_witness :
    ({ theme := some "system", resolvedTheme := some "dark" } : HookState).theme
        = some DarkModeTheme.system.toStr ∧
      applyTheme {} { theme := some "system", resolvedTheme := some "dark" }
        .default .system ⟨[]⟩ = ⟨⟨[]⟩, [], false⟩ :=
  ⟨rfl, applyTheme_noop_guard {} _ _ _ _ rfl⟩

/-- Claim C5: with no window or no `startViewTransition`, every transition
kind degrades to a bare synchronous store write: the document is untouched,
the only event is the store write, nothing is raised. -/
theorem applyTheme_capability_fallback (env : Env) (hs : HookState)
    (transition : DarkModeTransition) (newTheme : DarkModeTheme) (d : Doc)
    (hne : hs.theme ≠ some newTheme.toStr)
    (hcap : env.hasWindow = false ∨ env.hasStartViewTransition = false) :
    applyTheme env hs transition newTheme d
      = ⟨d, [Event.setTheme newTheme], false⟩ := by
  rcases hcap with h | h <;> simp [applyTheme, hne, h]

/-- Witness for C5: a circular-reveal call without `startViewTransition`
degrades to a bare store write. -/
theorem applyTheme_capability_fallback_witness :
    ({ theme := some "light" } : HookState).theme
        ≠ some DarkModeTheme.dark.toStr ∧
      ({ hasStartViewTransition := false } : Env).hasStartViewTransition
        = false ∧
      applyTheme { hasStartViewTransition := false } { theme := some "light" }
        (.circularReveal (.coords 10 10) Option.none Option.none) .dark ⟨[]⟩
        = ⟨⟨[]⟩, [Event.setTheme .dark], false⟩ :=
  ⟨by simp [DarkModeTheme.toStr], rfl,
    applyTheme_capability_fallback _ _ _ _ _
      (by simp [DarkModeTheme.toStr]) (Or.inr rfl)⟩

/-- Claim C9: `addDocumentStyles` is idempotent — a call while an element with
the id exists is a no-op; two successive calls (same or different text) leave
exactly one element with the id, and the second call changes nothing, so its
text never replaces the existing content. -/
theorem addDocumentStyles_idempotent (d : Doc) (id t1 t2 : String)
    (h : d.styles.countP (fun s => s.id == id) ≤ 1) :
    ((getElementById d id).isSome = true →
        addDocumentStyles d id t1 = (d, [])) ∧
      addDocumentStyles (addDocumentStyles d id t1).1 id t2
        = ((addDocumentStyles d id t1).1, []) ∧
      (addDocumentStyles (addDocumentStyles d id t1).1 id t2).1.styles.countP
          (fun s => s.id == id) = 1 := by
  have hone := countP_addDocumentStyles_self d id t1 h
  set D1 := (addDocumentStyles d id t1).1 with hD1
  have hsome : (getElementById D1 id).isSome = true :=
    (getElementById_isSome_iff _ id).mpr (by omega)
  have hnoop : addDocumentStyles D1 id t2 = (D1, []) := by
    simp [addDocumentStyles, hsome]
  refine ⟨fun hp => by simp [addDocumentStyles, hp], hnoop, ?_⟩
  rw [hnoop]
  exact hone

/-- Witness for C9: two calls with the same id and different texts on an
initially id-free document leave exactly one element, with the first text. -/
theorem addDocumentStyles_idempotent_witness :
    (⟨[]⟩ : Doc).styles.countP (fun s => s.id == "a") ≤ 1 ∧
      addDocumentStyles (addDocumentStyles ⟨[]⟩ "a" "t1").1 "a" "t2"
        = ((addDocumentStyles ⟨[]⟩ "a" "t1").1, []) ∧
      (addDocumentStyles (addDocumentStyles ⟨[]⟩ "a" "t1").1 "a"
          "t2").1.styles.countP (fun s => s.id == "a") = 1 :=
  ⟨by simp,
    (addDocumentStyles_idempotent ⟨[]⟩ "a" "t1" "t2" (by simp)).2.1,
    (addDocumentStyles_idempotent ⟨[]⟩ "a" "t1" "t2" (by simp)).2.2⟩

/-- Claim C10: `toggle` requests `'light'` exactly when the resolved theme is
`'dark'` and `'dark'` otherwise, never `'system'` (so with raw theme
`'system'` it requests the opposite of the system-resolved value);
`enable` / `disable` / `system` request the fixed themes. -/
theorem useDarkMode_action_targets (hs : HookState) :
    ((useDarkMode hs).toggle = .light ↔ hs.resolvedTheme = some "dark") ∧
      ((useDarkMode hs).toggle = .dark ↔ hs.resolvedTheme ≠ some "dark") ∧
      (useDarkMode hs).toggle ≠ .system ∧
      (hs.theme = some "system" → hs.resolvedTheme = some "dark" →
        (useDarkMode hs).toggle = .light) ∧
      (hs.theme = some "system" → hs.resolvedTheme = some "light" →
        (useDarkMode hs).toggle = .dark) ∧
      (useDarkMode hs).enable = .dark ∧
      (useDarkMode hs).disable = .light ∧
      (useDarkMode hs).system = .system := by
  by_cases h : hs.resolvedTheme = some "dark" <;> simp [useDarkMode, h]

/-- Witness for C10: with raw theme `'system'` resolved to `'dark'`, `toggle`
requests `'light'`. -/
theorem useDarkMode_action_targets_witness :
    (useDarkMode { theme := some "system", resolvedTheme := some "dark" }).toggle
      = DarkModeTheme.light :=
  (useDarkMode_action_targets
    { theme := some "system", resolvedTheme := some "dark" }).1.mpr rfl

/-- Helper: the two well-known style ids are distinct and the custom id never
matches an element whose id is the disable id. -/
theorem style_ids_distinct :
    (STYLE_IDS_ADD_CUSTOM == STYLE_IDS_DISABLE_DEFAULT) = false := by
  decide

/-- Helper: a circular-reveal call that passes both guards runs
`handleCircularReveal`. -/
theorem applyTheme_circular_run (env : Env) (hs : HookState)
    (center : CircularRevealCenter) (du : Option JsVal) (ea : Option String)
    (newTheme : DarkModeTheme) (d : Doc)
    (hne : hs.theme ≠ some newTheme.toStr)
    (hw : env.hasWindow = true) (hsvt : env.hasStartViewTransition = true) :
    applyTheme env hs (.circularReveal center du ea) newTheme d
      = handleCircularReveal env newTheme center du ea d := by
  simp [applyTheme, hne, hw, hsvt]

/-- Helper: a custom call that passes both guards runs
`handleCustomTransition`. -/
theorem applyTheme_custom_run (env : Env) (hs : HookState)
    (old new : Option AnimateConfig) (css : Option String)
    (newTheme : DarkModeTheme) (d : Doc)
    (hne : hs.theme ≠ some newTheme.toStr)
    (hw : env.hasWindow = true) (hsvt : env.hasStartViewTransition = true) :
    applyTheme env hs (.custom old new css) newTheme d
      = handleCustomTransition env newTheme old new css d := by
  simp [applyTheme, hne, hw, hsvt]

/-- Claim C3: after any circular-reveal or custom run of `applyTheme` that
reaches its handler (no-op guard passed, capability present) — whatever the
fate of `ready`, the `animate` calls and `finished` — no element with the
disabling style id remains in the document, provided the initial document was
well-formed (at most one element with that id). -/
theorem applyTheme_cleanup_removes_disable_style (env : Env) (hs : HookState)
    (newTheme : DarkModeTheme) (d : Doc) (center : CircularRevealCenter)
    (du : Option JsVal) (ea : Option String)
    (old new : Option AnimateConfig) (css : Option String)
    (hne : hs.theme ≠ some newTheme.toStr)
    (hw : env.hasWindow = true) (hsvt : env.hasStartViewTransition = true)
    (hA : d.styles.countP (fun s => s.id == STYLE_IDS_DISABLE_DEFAULT) ≤ 1) :
    (applyTheme env hs (.circularReveal center du ea) newTheme
        d).doc.styles.countP (fun s => s.id == STYLE_IDS_DISABLE_DEFAULT) = 0
      ∧ (applyTheme env hs (.custom old new css) newTheme
        d).doc.styles.countP (fun s => s.id == STYLE_IDS_DISABLE_DEFAULT)
          = 0 := by
  have hAdd := countP_addDocumentStyles_self d STYLE_IDS_DISABLE_DEFAULT
    disableDefaultStylesText hA
  constructor
  · rw [applyTheme_circular_run env hs center du ea newTheme d hne hw hsvt]
    simp only [handleCircularReveal, resetDefaultStyles, disableDefaultStyles]
    exact countP_removeDocumentStyles_self _ _ (by omega)
  · rw [applyTheme_custom_run env hs old new css newTheme d hne hw hsvt]
    simp only [handleCustomTransition, resetDefaultStyles,
      disableDefaultStyles]
    by_cases hcss : jsTruthyOptStr css = true
    · simp only [hcss, if_true]
      have h2 : ((addDocumentStyles
          (addDocumentStyles d STYLE_IDS_DISABLE_DEFAULT
            disableDefaultStylesText).1 STYLE_IDS_ADD_CUSTOM
          (css.getD "")).1.styles.countP
            (fun s => s.id == STYLE_IDS_DISABLE_DEFAULT)) = 1 := by
        rw [countP_addDocumentStyles_other _ _ _ _ style_ids_distinct]
        exact hAdd
      have h3 := countP_removeDocumentStyles_self
        (addDocumentStyles
          (addDocumentStyles d STYLE_IDS_DISABLE_DEFAULT
            disableDefaultStylesText).1 STYLE_IDS_ADD_CUSTOM (css.getD "")).1
        STYLE_IDS_DISABLE_DEFAULT (by omega)
      rw [countP_removeDocumentStyles_other]
      · exact h3
      · intro s hs'
        have hsB : s.id = STYLE_IDS_ADD_CUSTOM := by
          simpa using hs'
        rw [hsB]
        decide
    · have hcss' : jsTruthyOptStr css = false := by
        simpa using hcss
      simp only [hcss', Bool.false_eq_true, if_false]
      exact countP_removeDocumentStyles_self _ _ (by omega)

/-- Witness for C3: a concrete custom call with CSS leaves no disabling style
element behind even though `ready` and `finished` both reject. -/
theorem applyTheme_cleanup_removes_disable_style_witness :
    (⟨[]⟩ : Doc).styles.countP
        (fun s => s.id == STYLE_IDS_DISABLE_DEFAULT) ≤ 1 ∧
      (applyTheme { readyOk := false, finishedOk := false }
          { theme := some "light" }
          (.custom Option.none Option.none (some "p \x7b color: red \x7d"))
          .dark ⟨[]⟩).doc.styles.countP
        (fun s => s.id == STYLE_IDS_DISABLE_DEFAULT) = 0 :=
  ⟨by simp,
    (applyTheme_cleanup_removes_disable_style
      { readyOk := false, finishedOk := false } { theme := some "light" }
      .dark ⟨[]⟩ (.coords 0 0) Option.none Option.none Option.none Option.none
      (some "p \x7b color: red \x7d") (by simp [DarkModeTheme.toStr]) rfl rfl
      (by simp)).2⟩

/-- Counterexample to Claim C1 as stated: with the platform capability
present, a rejection of the transition's `finished` awaitable does escape
`applyTheme` (the `finally` block restores the styles but re-raises). -/
theorem applyTheme_finished_rejection_escapes :
    (applyTheme { finishedOk := false, innerWidth := 800, innerHeight := 600 }
        { theme := some "light" }
        (.circularReveal (.coords 0 0) Option.none Option.none) .dark
        ⟨[]⟩).raised = true := by
  rfl

/-- Claim C1 (amended): for circular-reveal and custom invocations with the
capability present, rejections of `ready` and failures of the `animate` calls
never escape `applyTheme` — the call raises exactly when the `finished`
awaitable rejects — and the theme-store write happens on every such run. -/
theorem applyTheme_animation_failure_policy (env : Env) (hs : HookState)
    (newTheme : DarkModeTheme) (d : Doc) (center : CircularRevealCenter)
    (du : Option JsVal) (ea : Option String)
    (old new : Option AnimateConfig) (css : Option String)
    (hne : hs.theme ≠ some newTheme.toStr)
    (hw : env.hasWindow = true) (hsvt : env.hasStartViewTransition = true) :
    ((applyTheme env hs (.circularReveal center du ea) newTheme d).raised
        = !env.finishedOk
      ∧ Event.setTheme newTheme
        ∈ (applyTheme env hs (.circularReveal center du ea) newTheme d).events)
    ∧ ((applyTheme env hs (.custom old new css) newTheme d).raised
        = !env.finishedOk
      ∧ Event.setTheme newTheme
        ∈ (applyTheme env hs (.custom old new css) newTheme d).events) := by
  simp only [applyTheme, hne, hw, hsvt, Bool.not_true, Bool.or_self,
    if_false, if_neg hne]
  refine ⟨⟨rfl, ?_⟩, ⟨rfl, ?_⟩⟩
  · simp [handleCircularReveal, List.mem_append]
  · simp [handleCustomTransition, List.mem_append]

/-- Witness for C1 (amended): concrete custom call where `ready` rejects and
the old animate would throw; nothing escapes and the store write happened. -/
theorem applyTheme_animation_failure_policy_witness :
    (applyTheme { readyOk := false, oldAnimateOk := false }
        { theme := some "light" }
        (.custom (some ⟨3, some (.num 200)⟩) Option.none Option.none) .dark
        ⟨[]⟩).raised = !(true : Bool)
      ∧ Event.setTheme .dark
        ∈ (applyTheme { readyOk := false, oldAnimateOk := false }
            { theme := some "light" }
            (.custom (some ⟨3, some (.num 200)⟩) Option.none Option.none)
            .dark ⟨[]⟩).events :=
  (applyTheme_animation_failure_policy
    { readyOk := false, oldAnimateOk := false } { theme := some "light" }
    .dark ⟨[]⟩ (.coords 0 0) Option.none Option.none
    (some ⟨3, some (.num 200)⟩) Option.none Option.none
    (by simp [DarkModeTheme.toStr]) rfl rfl).2

/-- Helper: the animate call a circular reveal issues once `ready` resolves,
for an explicit-coordinates center. -/
theorem handleCircularReveal_emits (env : Env) (cx cy : ℝ)
    (newTheme : DarkModeTheme) (du : Option JsVal) (ea : Option String)
    (d : Doc) (hready : env.readyOk = true) :
    Event.animate
      (Keyframes.clipPath ⟨0, cx, cy⟩
        ⟨hypot (max cx (env.innerWidth - cx)) (max cy (env.innerHeight - cy)),
          cx, cy⟩)
      { duration := some (jsOrVal du (.num 500)),
        easing := some (jsOrStr ea "ease-in-out"),
        pseudoElement := some "::view-transition-new(root)" }
      ∈ (handleCircularReveal env newTheme (.coords cx cy) du ea d).events := by
  simp only [handleCircularReveal, getCircularRevealCenter, hready, if_true]
  simp [List.mem_append]

/-- Claim C2 (evaluation at the failing input): for a custom transition whose
old-snapshot spec carries bare numeric options, the current
`handleCustomTransition` animates the old-snapshot pseudo-element, but the
earlier inline variant of `applyTheme` passes the new-snapshot
pseudo-element for the very same input. -/
theorem custom_numeric_old_options_pseudo_element :
    ((handleCustomTransition {} .dark (some ⟨7, some (.num 300)⟩)
        Option.none Option.none ⟨[]⟩).events
      = [Event.addStyle STYLE_IDS_DISABLE_DEFAULT disableDefaultStylesText,
         Event.startViewTransition, Event.setTheme .dark,
         Event.animate (Keyframes.raw 7)
           { duration := some (.num 300),
             pseudoElement := some "::view-transition-old(root)" },
         Event.removeStyle STYLE_IDS_DISABLE_DEFAULT])
    ∧ ((handleCustomTransitionInline {} .dark (some ⟨7, some (.num 300)⟩)
        Option.none Option.none ⟨[]⟩).events
      = [Event.addStyle STYLE_IDS_DISABLE_DEFAULT disableDefaultStylesText,
         Event.startViewTransition, Event.setTheme .dark,
         Event.animate (Keyframes.raw 7)
           { duration := some (.num 300),
             pseudoElement := some "::view-transition-new(root)" },
         Event.removeStyle STYLE_IDS_DISABLE_DEFAULT]) := by
  constructor <;> rfl

/-- Claim C6: the reveal radius the circular-reveal path animates to is the
Euclidean hypotenuse of the larger horizontal and vertical distances from the
center to the viewport edges; in particular for center `(0,0)` in an 800×600
viewport it is exactly 1000. -/
theorem handleCircularReveal_max_radius (env : Env) (cx cy : ℝ)
    (newTheme : DarkModeTheme) (du : Option JsVal) (ea : Option String)
    (d : Doc) (hready : env.readyOk = true) :
    (∃ o : AnimOptions,
      Event.animate
        (Keyframes.clipPath ⟨0, cx, cy⟩
          ⟨Real.sqrt ((max cx (env.innerWidth - cx)) ^ 2 +
              (max cy (env.innerHeight - cy)) ^ 2), cx, cy⟩) o
        ∈ (handleCircularReveal env newTheme (.coords cx cy) du ea d).events)
    ∧ (∃ o : AnimOptions,
      Event.animate (Keyframes.clipPath ⟨0, 0, 0⟩ ⟨1000, 0, 0⟩) o
        ∈ (handleCircularReveal { innerWidth := 800, innerHeight := 600 }
            .dark (.coords 0 0) Option.none Option.none ⟨[]⟩).events) := by
  constructor
  · exact ⟨_, handleCircularReveal_emits env cx cy newTheme du ea d hready⟩
  · have h := handleCircularReveal_emits
      { innerWidth := 800, innerHeight := 600 } 0 0 .dark Option.none
      Option.none ⟨[]⟩ rfl
    have hW : ({ innerWidth := 800, innerHeight := 600 } : Env).innerWidth
        = 800 := rfl
    have hH : ({ innerWidth := 800, innerHeight := 600 } : Env).innerHeight
        = 600 := rfl
    rw [hW, hH] at h
    have h1000 : hypot (max (0:ℝ) (800 - 0)) (max (0:ℝ) (600 - 0))
        = 1000 := by
      rw [hypot, max_eq_right (by norm_num : (0:ℝ) ≤ 800 - 0),
        max_eq_right (by norm_num : (0:ℝ) ≤ 600 - 0),
        show ((800:ℝ) - 0) ^ 2 + ((600:ℝ) - 0) ^ 2 = 1000 ^ 2 by norm_num]
      exact Real.sqrt_sq (by norm_num)
    rw [h1000] at h
    exact ⟨_, h⟩

/-- Witness for C6: concrete instantiation at center `(5,7)` in the 800×600
viewport. -/
theorem handleCircularReveal_max_radius_witness :
    ({ innerWidth := 800, innerHeight := 600 } : Env).readyOk = true ∧
      (∃ o : AnimOptions,
        Event.animate
          (Keyframes.clipPath ⟨0, 5, 7⟩
            ⟨Real.sqrt ((max (5:ℝ) (800 - 5)) ^ 2 + (max (7:ℝ) (600 - 7)) ^ 2),
              5, 7⟩) o
          ∈ (handleCircularReveal { innerWidth := 800, innerHeight := 600 }
              .dark (.coords 5 7) Option.none Option.none ⟨[]⟩).events) :=
  ⟨rfl, (handleCircularReveal_max_radius
    { innerWidth := 800, innerHeight := 600 } 5 7 .dark Option.none
    Option.none ⟨[]⟩ rfl).1⟩

/-- Counterexample to Claim C7 as stated: the end-to-end circular reveal at
center `(50,50)` in a 1000×800 viewport does animate to radius
`hypot(max(50,950), max(50,750))`, but that radius is not `1075.8…` — it
exceeds 1075.9. -/
theorem circularReveal_radius_not_1075 :
    (Event.animate
        (Keyframes.clipPath ⟨0, 50, 50⟩
          ⟨hypot (max (50:ℝ) (1000 - 50)) (max (50:ℝ) (800 - 50)), 50, 50⟩)
        { duration := some (.num 300), easing := some "ease-in-out",
          pseudoElement := some "::view-transition-new(root)" }
      ∈ (applyTheme { innerWidth := 1000, innerHeight := 800 }
          { theme := some "light" }
          (.circularReveal (.coords 50 50) (some (.num 300)) Option.none)
          .dark ⟨[]⟩).events)
    ∧ ¬ ((1075.8:ℝ) ≤ hypot (max (50:ℝ) (1000 - 50)) (max (50:ℝ) (800 - 50))
        ∧ hypot (max (50:ℝ) (1000 - 50)) (max (50:ℝ) (800 - 50))
          < 1075.9) := by
  constructor
  · rw [applyTheme_circular_run _ _ _ _ _ _ _
      (by simp [DarkModeTheme.toStr]) rfl rfl]
    exact handleCircularReveal_emits
      { innerWidth := 1000, innerHeight := 800 } 50 50 .dark
      (some (.num 300)) Option.none ⟨[]⟩ rfl
  · rintro ⟨-, hlt⟩
    have hgt : (1075.9:ℝ)
        < hypot (max (50:ℝ) (1000 - 50)) (max (50:ℝ) (800 - 50)) := by
      rw [hypot, max_eq_right (by norm_num : (50:ℝ) ≤ 1000 - 50),
        max_eq_right (by norm_num : (50:ℝ) ≤ 800 - 50),
        Real.lt_sqrt (by norm_num)]
      norm_num
    linarith

/-- Claim C7 (amended): the end-to-end circular reveal in a 1000×800 viewport
at center `(50,50)` with duration 300 animates the new-snapshot clip-path
from a zero circle at the center to a circle of radius
`hypot(max(50,950), max(50,750)) = 1210.3…` over 300ms with default easing,
with the disabling style injected before and removed after. -/
theorem circularReveal_endtoend_1000x800 :
    ((applyTheme { innerWidth := 1000, innerHeight := 800 }
        { theme := some "light" }
        (.circularReveal (.coords 50 50) (some (.num 300)) Option.none) .dark
        ⟨[]⟩).events
      = [Event.addStyle STYLE_IDS_DISABLE_DEFAULT disableDefaultStylesText,
         Event.startViewTransition, Event.setTheme .dark,
         Event.animate
           (Keyframes.clipPath ⟨0, 50, 50⟩
             ⟨hypot (max (50:ℝ) (1000 - 50)) (max (50:ℝ) (800 - 50)),
               50, 50⟩)
           { duration := some (.num 300), easing := some "ease-in-out",
             pseudoElement := some "::view-transition-new(root)" },
         Event.removeStyle STYLE_IDS_DISABLE_DEFAULT])
    ∧ (1210.3:ℝ) < hypot (max (50:ℝ) (1000 - 50)) (max (50:ℝ) (800 - 50))
    ∧ hypot (max (50:ℝ) (1000 - 50)) (max (50:ℝ) (800 - 50)) < 1210.4 := by
  refine ⟨rfl, ?_, ?_⟩
  · rw [hypot, max_eq_right (by norm_num : (50:ℝ) ≤ 1000 - 50),
      max_eq_right (by norm_num : (50:ℝ) ≤ 800 - 50),
      Real.lt_sqrt (by norm_num)]
    norm_num
  · rw [hypot, max_eq_right (by norm_num : (50:ℝ) ≤ 1000 - 50),
      max_eq_right (by norm_num : (50:ℝ) ≤ 800 - 50),
      Real.sqrt_lt' (by norm_num)]
    norm_num

/-- Counterexample to Claim C8 as stated: a configured duration of 0 is falsy
under `config.duration || 500`, so the animate call runs with 500, not 0. -/
theorem circularReveal_zero_duration_not_used :
    ((applyTheme { innerWidth := 100, innerHeight := 100 }
        { theme := some "light" }
        (.circularReveal (.coords 0 0) (some (.num 0)) Option.none) .dark
        ⟨[]⟩).events
      = [Event.addStyle STYLE_IDS_DISABLE_DEFAULT disableDefaultStylesText,
         Event.startViewTransition, Event.setTheme .dark,
         Event.animate
           (Keyframes.clipPath ⟨0, 0, 0⟩
             ⟨hypot (max (0:ℝ) (100 - 0)) (max (0:ℝ) (100 - 0)), 0, 0⟩)
           { duration := some (.num 500), easing := some "ease-in-out",
             pseudoElement := some "::view-transition-new(root)" },
         Event.removeStyle STYLE_IDS_DISABLE_DEFAULT])
    ∧ JsVal.num 500 ≠ JsVal.num 0 := by
  refine ⟨rfl, ?_⟩
  simp

/-- Claim C8 (amended): the clip-path animation uses
`config.duration || 500` and `config.easing || 'ease-in-out'` under
JavaScript truthiness: a supplied nonzero numeric duration and nonempty
easing pass through, while an absent or falsy value (duration 0, empty
easing) falls back to the default. -/
theorem circularReveal_duration_easing_defaults (env : Env) (cx cy : ℝ)
    (newTheme : DarkModeTheme) (du : Option JsVal) (ea : Option String)
    (d : Doc) (hready : env.readyOk = true) :
    (∃ k : Keyframes,
      Event.animate k
        { duration := some (jsOrVal du (.num 500)),
          easing := some (jsOrStr ea "ease-in-out"),
          pseudoElement := some "::view-transition-new(root)" }
        ∈ (handleCircularReveal env newTheme (.coords cx cy) du ea d).events)
    ∧ (∀ n : ℚ, n ≠ 0 → jsOrVal (some (.num n)) (.num 500) = .num n)
    ∧ jsOrVal (some (.num 0)) (.num 500) = .num 500
    ∧ jsOrVal Option.none (.num 500) = .num 500
    ∧ (∀ s : String, s ≠ "" → jsOrStr (some s) "ease-in-out" = s)
    ∧ jsOrStr (some "") "ease-in-out" = "ease-in-out"
    ∧ jsOrStr Option.none "ease-in-out" = "ease-in-out" := by
  refine ⟨⟨_, handleCircularReveal_emits env cx cy newTheme du ea d hready⟩,
    ?_, rfl, rfl, ?_, rfl, rfl⟩
  · intro n hn
    simp [jsOrVal, JsVal.truthy, hn]
  · intro s hs'
    simp [jsOrStr, hs']

/-- Witness for C8 (amended): concrete instantiation with a supplied nonzero
duration. -/
theorem circularReveal_duration_easing_defaults_witness :
    ({ innerWidth := 100, innerHeight := 100 } : Env).readyOk = true ∧
      (∃ k : Keyframes,
        Event.animate k
          { duration := some (jsOrVal (some (.num 250)) (.num 500)),
            easing := some (jsOrStr Option.none "ease-in-out"),
            pseudoElement := some "::view-transition-new(root)" }
          ∈ (handleCircularReveal { innerWidth := 100, innerHeight := 100 }
              .light (.coords 3 4) (some (.num 250)) Option.none
              ⟨[]⟩).events) :=
  ⟨rfl, (circularReveal_duration_easing_defaults
    { innerWidth := 100, innerHeight := 100 } 3 4 .light (some (.num 250))
    Option.none ⟨[]⟩ rfl).1⟩

end NextDarkMode
